import Mathlib

/-!
Verification of the `hubtel_sms` client library (request-body construction,
phone/time normalization, dictionary pruning, exception explanation and HTTP
response classification) against its natural-language specification.

The Python source is shallowly embedded: Python values that can appear in a
request body become the inductive `PyValue`; fallible code becomes `Except`;
the external `phonenumbers` and `dateutil` libraries (out of scope for the
spec) become oracle parameters, with small concrete instances mirroring their
documented behaviour used for witnesses.
-/

/-- A JSON-serializable Python value as used in request bodies
(`src/message.py`).  `none` is Python `None`. -/
inductive PyValue where
  | none
  | bool (b : Bool)
  | int (n : Int)
  | str (s : String)
  | list (xs : List PyValue)
  | dict (xs : List (String × PyValue))

/-- Python truthiness (`bool(v)`) restricted to the values above:
`None`/`False`/`0`/`""`/`[]`/`{}` are falsy, everything else truthy. -/
def truthy : PyValue → Bool
  | .none => false
  | .bool b => b
  | .int n => decide (n ≠ 0)
  | .str s => decide (s ≠ "")
  | .list xs => !xs.isEmpty
  | .dict xs => !xs.isEmpty

/-- `utils.prune`: `{k: v for (k, v) in body.items() if bool(v) is not False}`
— keeps exactly the truthy-valued keys, in order. -/
def prune (body : List (String × PyValue)) : List (String × PyValue) :=
  body.filter (fun kv => truthy kv.2)

/-- The exception taxonomy of `src/exceptions.py` as far as body construction
can raise it.  Each constructor carries the stringified argument the Python
code passes to the exception. -/
inductive HubtelError where
  | invalidPhoneNumberError (msg : String)
  | invalidTimeStringError (msg : String)
  | invalidMessageError (msg : String)
deriving DecidableEq

/-- What the external `phonenumbers` library does with an input string under
region "GH": `phonenumbers.parse` either raises `NumberParseException`
(`unparsable`), or returns an object for which `is_valid_number` is `false`
(`invalid`), or one which is valid and formats to the given E.164 string
(`valid`). -/
inductive PhoneParse where
  | valid (e164 : String)
  | invalid
  | unparsable

/-- `utils.parse_phone_number`, over a `phonenumbers` oracle `ph`.  The
argument is `Option String` because the Python attribute it receives may be
`None` (`phonenumbers.parse(None, ...)` raises `NumberParseException`).
Faithful to the source: when the number parses but `is_valid_number` is
false, the Python function falls off the end and returns `None` — hence the
`.ok Option.none` branch, with no exception. -/
def parse_phone_number (ph : String → PhoneParse) :
    Option String → Except HubtelError (Option String)
  | Option.none =>
      .error (.invalidPhoneNumberError "None: is not a valid phone number.")
  | some s =>
      match ph s with
      | .valid e => .ok (some e)
      | .invalid => .ok Option.none
      | .unparsable =>
          .error (.invalidPhoneNumberError (s ++ ": is not a valid phone number."))

/-- A parsed datetime, as produced by `dateutil.parser.parse`. -/
structure PyDateTime where
  year : Nat
  month : Nat
  day : Nat
  hour : Nat
  minute : Nat
  second : Nat
deriving DecidableEq

/-- The character for a single decimal digit `n < 10` (ASCII `'0' + n`). -/
def digitChar (n : Nat) : Char := Char.ofNat (48 + n)

/-- `datetime.strftime("%Y-%m-%d %H:%M:%S")`, embedded for field values in
their calendar ranges (4-digit year, 2-digit month/day/hour/minute/second),
where the platform `strftime` paddings are uniform. -/
def strftimeSec (d : PyDateTime) : String :=
  ⟨[digitChar (d.year / 1000 % 10), digitChar (d.year / 100 % 10),
    digitChar (d.year / 10 % 10), digitChar (d.year % 10), '-',
    digitChar (d.month / 10 % 10), digitChar (d.month % 10), '-',
    digitChar (d.day / 10 % 10), digitChar (d.day % 10), ' ',
    digitChar (d.hour / 10 % 10), digitChar (d.hour % 10), ':',
    digitChar (d.minute / 10 % 10), digitChar (d.minute % 10), ':',
    digitChar (d.second / 10 % 10), digitChar (d.second % 10)]⟩

/-- `datetime.strftime("%Y-%m-%d %H:%M")` (the "drop seconds" format). -/
def strftimeNoSec (d : PyDateTime) : String :=
  ⟨[digitChar (d.year / 1000 % 10), digitChar (d.year / 100 % 10),
    digitChar (d.year / 10 % 10), digitChar (d.year % 10), '-',
    digitChar (d.month / 10 % 10), digitChar (d.month % 10), '-',
    digitChar (d.day / 10 % 10), digitChar (d.day % 10), ' ',
    digitChar (d.hour / 10 % 10), digitChar (d.hour % 10), ':',
    digitChar (d.minute / 10 % 10), digitChar (d.minute % 10)]⟩

/-- `utils.parse_time`, over a `dateutil` oracle `dt` (`Option.none` from the
oracle means `dateutil.parser.parse` raised `ValueError`/`OverflowError`).
A falsy `time` argument (`None` or `""`) skips parsing and the function
returns Python `None`. -/
def parse_time (dt : String → Option PyDateTime) (time : Option String)
    (drop_seconds : Bool) : Except HubtelError (Option String) :=
  match time with
  | Option.none => .ok Option.none
  | some s =>
      if s = "" then .ok Option.none
      else
        match dt s with
        | some d =>
            .ok (some (if drop_seconds then strftimeNoSec d else strftimeSec d))
        | Option.none => .error (.invalidTimeStringError s)

/-- Concrete `phonenumbers` oracle mirroring the real library's behaviour on
the sample inputs used below: `"0550000000"`/`"0540000000"` are valid GH
numbers (E.164 `+23355.../+23354...`); `"123"` parses under region GH (three
digits exceed the minimum viable length) but `is_valid_number` is false;
everything else here stands for inputs on which `phonenumbers.parse` raises
`NumberParseException`. -/
def phGH : String → PhoneParse := fun s =>
  if s = "0550000000" then .valid "+233550000000"
  else if s = "0540000000" then .valid "+233540000000"
  else if s = "123" then .invalid
  else .unparsable

/-- Concrete `dateutil` oracle for the sample timestamps used below,
mirroring `dateutil.parser.parse` on them. -/
def dtFix : String → Option PyDateTime := fun s =>
  if s = "2018-03-23 10:27:24" then some ⟨2018, 3, 23, 10, 27, 24⟩
  else if s = "2018-03-23 10:27" then some ⟨2018, 3, 23, 10, 27, 0⟩
  else Option.none

/-- Embed a Python attribute that is either a string or `None`. -/
def optStrToPy : Option String → PyValue
  | some s => .str s
  | Option.none => .none

/-- Embed a Python attribute that is either a bool or `None`. -/
def optBoolToPy : Option Bool → PyValue
  | some b => .bool b
  | Option.none => .none

/-- One `{"MobileNumber": ...}` entry of a `Recipients` list. -/
def mkMobile (p : Option String) : PyValue :=
  .dict [("MobileNumber", optStrToPy p)]

/-- Left-to-right effectful map, embedding a Python list comprehension whose
element expression may raise: the first exception aborts the whole
comprehension. -/
def mapME (f : α → Except ε β) : List α → Except ε (List β)
  | [] => .ok []
  | a :: as =>
      (f a).bind (fun b => (mapME f as).bind (fun bs => .ok (b :: bs)))

/-- `message.Message`: the nine attributes set by `Message.__init__`
(each defaults to `None`). -/
structure Message where
  sender : Option String
  recipient : Option String
  recipients : Option (List String)
  content : Option String
  campaign_name : Option String
  time : Option String
  registered_delivery : Option Bool
  flash_message : Option Bool
  reference : Option String

/-- `message.Messages`: the four attributes set by `Messages.__init__`. -/
structure Messages where
  sender : Option String
  campaign_name : Option String
  batch : Option (List Message)
  time : Option String

/-- The bulk branch of `MessageMixin.body` for a `Message` whose
`recipients` attribute is the list `rs` (source lines 30-48): one content
group holding all phone-normalized recipients, then the seconds-dropped
time, then the pruned top-level dictionary.  An `InvalidPhoneNumberError`
or `InvalidTimeStringError` raised here is not a `TypeError`/`AttributeError`
and therefore propagates instead of falling back to the single branch. -/
def Message.bulkBody (ph : String → PhoneParse) (dt : String → Option PyDateTime)
    (m : Message) (rs : List String) : Except HubtelError (List (String × PyValue)) :=
  (mapME (fun r => Except.map mkMobile (parse_phone_number ph (some r))) rs).bind
    (fun recips =>
      (parse_time dt m.time true).bind (fun t =>
        .ok (prune [
          ("SenderId", optStrToPy m.sender),
          ("Name", optStrToPy m.campaign_name),
          ("Groups", PyValue.list [PyValue.dict [
            ("Content", optStrToPy m.content),
            ("Recipients", PyValue.list recips)]]),
          ("Time", optStrToPy t)])))

/-- The single-recipient branch of `MessageMixin.body` (source lines 51-66),
reached when iterating `self.recipients` raised `TypeError` (i.e. it is
`None`).  Dictionary-literal evaluation order: the phone number ("To") is
parsed before the time.  For a `Message` built by `__init__` every attribute
exists, so the `except AttributeError` wrap into `InvalidMessageError` is
unreachable and the phone/time errors propagate as themselves. -/
def Message.singleBody (ph : String → PhoneParse) (dt : String → Option PyDateTime)
    (m : Message) : Except HubtelError (List (String × PyValue)) :=
  (parse_phone_number ph m.recipient).bind (fun toNum =>
    (parse_time dt m.time false).bind (fun t =>
      .ok (prune [
        ("From", optStrToPy m.sender),
        ("To", optStrToPy toNum),
        ("Content", optStrToPy m.content),
        ("RegisteredDelivery", optBoolToPy m.registered_delivery),
        ("Time", optStrToPy t),
        ("FlashMessage", optBoolToPy m.flash_message),
        ("ClientReference", optStrToPy m.reference)])))

/-- `MessageMixin.body` specialized to a `Message` instance: the bulk branch
is attempted first; iterating a `None` `recipients` raises `TypeError`,
which is caught and falls back to the single-recipient branch.  Any
(possibly empty) list takes the bulk branch. -/
def Message.body (ph : String → PhoneParse) (dt : String → Option PyDateTime)
    (m : Message) : Except HubtelError (List (String × PyValue)) :=
  match m.recipients with
  | some rs => m.bulkBody ph dt rs
  | Option.none => m.singleBody ph dt

/-- `MessageMixin.body` specialized to a `Messages` instance (source lines
68-95): iterating a `None` batch raises `TypeError`, caught and re-raised as
`InvalidMessageError`; otherwise one group per batched message.  An
`InvalidPhoneNumberError` from an entry is not caught and propagates. -/
def Messages.body (ph : String → PhoneParse) (dt : String → Option PyDateTime)
    (b : Messages) : Except HubtelError (List (String × PyValue)) :=
  match b.batch with
  | Option.none =>
      .error (.invalidMessageError "TypeError: NoneType object is not iterable")
  | some msgs =>
      (mapME (fun each =>
          Except.map (fun p => PyValue.dict [
            ("Content", optStrToPy each.content),
            ("Recipients", PyValue.list [mkMobile p])])
          (parse_phone_number ph each.recipient)) msgs).bind
        (fun data =>
          (parse_time dt b.time true).bind (fun t =>
            .ok (prune [
              ("SenderId", optStrToPy b.sender),
              ("Name", optStrToPy b.campaign_name),
              ("Groups", PyValue.list data),
              ("Time", optStrToPy t)])))

/-- `MessageMixin.is_bulk` for a `Message`: Python truthiness of the
`recipients` attribute (`None` and `[]` are falsy). -/
def Message.is_bulk (m : Message) : Bool :=
  match m.recipients with
  | some rs => !rs.isEmpty
  | Option.none => false

/-- `MessageMixin.route` for a `Message`. -/
def Message.route (m : Message) : String :=
  if m.is_bulk then "batches" else "messages"

/-- `MessageMixin.is_bulk` for a `Messages` instance: the `isinstance`
check succeeds immediately. -/
def Messages.is_bulk (_ : Messages) : Bool := true

/-- `MessageMixin.route` for a `Messages` instance. -/
def Messages.route (b : Messages) : String :=
  if b.is_bulk then "batches" else "messages"

example :
    Message.body phGH dtFix
      ⟨some "pyhubtel", Option.none, some ["0550000000", "0540000000"],
       some "hello", some "camp", some "2018-03-23 10:27:24",
       Option.none, Option.none, Option.none⟩
    = .ok [
        ("SenderId", .str "pyhubtel"),
        ("Name", .str "camp"),
        ("Groups", .list [.dict [("Content", .str "hello"),
          ("Recipients", .list [.dict [("MobileNumber", .str "+233550000000")],
                                .dict [("MobileNumber", .str "+233540000000")]])]]),
        ("Time", .str "2018-03-23 10:27")] := rfl

example :
    Message.body phGH dtFix
      ⟨some "pyhubtel", some "0550000000", Option.none,
       some "hello", Option.none, some "2018-03-23 10:27:24",
       some true, some false, some "ref1"⟩
    = .ok [
        ("From", .str "pyhubtel"),
        ("To", .str "+233550000000"),
        ("Content", .str "hello"),
        ("RegisteredDelivery", .bool true),
        ("Time", .str "2018-03-23 10:27:24"),
        ("ClientReference", .str "ref1")] := rfl

example :
    Message.body phGH dtFix
      ⟨some "pyhubtel", Option.none, Option.none, some "hello",
       Option.none, Option.none, Option.none, Option.none, Option.none⟩
    = .error (.invalidPhoneNumberError "None: is not a valid phone number.") := rfl

/-- A Python exception that can escape the error-explanation path in
`src/exceptions.py` (all uncaught there): a JSON decoding failure from
`response.json()`, an `AttributeError` from `.get` on a non-dict JSON value,
or a `TypeError` from using an unhashable sub-code as a dict key. -/
inductive PyExc where
  | jsonDecodeError
  | attributeError
  | typeError
deriving DecidableEq

/-- A JSON value, as returned by `response.json()`. -/
inductive JsonVal where
  | obj (fields : List (String × JsonVal))
  | arr (xs : List JsonVal)
  | str (s : String)
  | int (n : Int)
  | bool (b : Bool)
  | null

/-- An HTTP response as the exception code observes it: the status code and
the result of calling `response.json()` (which raises on a non-JSON body). -/
structure Response where
  status_code : Nat
  json_result : Except PyExc JsonVal

/-- The inner sub-code table for status 400 in `_explain_response`. -/
def reasons400 (n : Int) : Option String :=
  if n = 3 then some "The message body was too long."
  else if n = 4 then some "The message is not routable on the Hubtel gateway."
  else if n = 6 then some "The message content was rejected or is invalid."
  else if n = 7 then some "One or more parameters are not allowed in the message."
  else if n = 8 then some "One or more parameters are not valid for the message."
  else none

/-- Python `dict.get(sub_code, None)` on the integer-keyed status-400 table:
only an `int` sub-code can match a key; `bool`/`str`/`null` sub-codes simply
miss (note Python `False == 0`, `True == 1`, neither of which is a key);
an `arr`/`obj` sub-code is unhashable, so `dict.get` raises `TypeError`,
which the `except (AttributeError, KeyError)` clause does not catch. -/
def subLookup400 : JsonVal → Except PyExc (Option String)
  | .int n => .ok (reasons400 n)
  | .bool _ => .ok none
  | .str _ => .ok none
  | .null => .ok none
  | .arr _ => .error .typeError
  | .obj _ => .error .typeError

/-- `exceptions._explain_response`.  Faithful to the source layout:
`sub_code = response.json().get("Status", False)` runs before the `try`
block, so a body that is not JSON (`json()` raises) or is JSON but not an
object (`.get` raises `AttributeError`) crashes the explanation.  Inside the
`try`, `reasons.get(status).get(sub_code, None)` either consults the 400
sub-table, or raises `AttributeError` on the plain strings for 402/403/404
(caught, degrading to the generic per-status message) or on `None` for any
other status (caught, degrading to no explanation). -/
def explain_response (r : Response) : Except PyExc (Option String) :=
  match r.json_result with
  | .error e => .error e
  | .ok (.obj fields) =>
      if r.status_code = 400 then
        subLookup400 ((fields.lookup "Status").getD (.bool false))
      else if r.status_code = 402 then
        .ok (some "Your account does not have enough messaging credits to send the message.")
      else if r.status_code = 403 then
        .ok (some "Recipient has not given his/her approval to receive messages.")
      else if r.status_code = 404 then
        .ok (some "The specified message was not found.")
      else .ok none
  | .ok _ => .error .attributeError

/-- `HubtelAPIException.__init__` on exactly two positional arguments (a
short message and a response): `self.reason` becomes
`"{}: {}".format(error_message, _explain_response(response))`, where Python
formats an absent explanation (`None`) as the string `"None"`.  The result
is the computed reason, or the exception `_explain_response` itself raised. -/
def reason_two (error_message : String) (r : Response) : Except PyExc String :=
  (explain_response r).bind (fun expl =>
    .ok (error_message ++ ": " ++
      (match expl with | some s => s | none => "None")))

example :
    reason_two "err" ⟨400, .ok (.obj [("Status", .int 4)])⟩
    = .ok "err: The message is not routable on the Hubtel gateway." := rfl

example :
    reason_two "err" ⟨400, .ok (.obj [("Status", .int 5)])⟩ = .ok "err: None" := rfl

example : reason_two "err" ⟨400, .error .jsonDecodeError⟩
    = .error .jsonDecodeError := rfl

/-- The outcome of the one HTTP call a client operation makes: either a
response arrived, or the transport raised `requests.RequestException`
(connection error, timeout, DNS) before `response` was ever assigned. -/
inductive HttpOutcome where
  | response (r : Response)
  | transportError

/-- What a client operation observably does with an `HttpOutcome`. -/
inductive SendResult where
  | returned (v : JsonVal)
  | returnedEmpty
  | returnedNone
  | raisedSMSErrorWithResponse (r : Response) (explanation : Option String)
  | raisedSMSErrorNoResponse
  | raisedUnboundLocalError
  | raisedOther (e : PyExc)

/-- `SMS._send` (source lines 128-145).  `[200, 203)` returns the parsed
body (a non-JSON 2xx body raises `ValueError`, caught by the blanket
`except Exception` and re-raised as a one-argument `SMSError`); `204`
returns `{}`; `raise_for_status` raises only for `[400, 600)`, whose
`HTTPError` is caught and re-raised as `SMSError(e, response)` — whose
construction runs `_explain_response` and can itself crash; every other
status falls off the function and returns Python `None`.  A transport-level
failure reaches `raise SMSError(e, response)` with `response` never
assigned, so the handler itself raises `UnboundLocalError`. -/
def sendInternal : HttpOutcome → SendResult
  | .transportError => .raisedUnboundLocalError
  | .response r =>
      if 200 ≤ r.status_code ∧ r.status_code < 203 then
        match r.json_result with
        | .ok v => .returned v
        | .error _ => .raisedSMSErrorNoResponse
      else if r.status_code = 204 then .returnedEmpty
      else if 400 ≤ r.status_code ∧ r.status_code < 600 then
        match explain_response r with
        | .ok expl => .raisedSMSErrorWithResponse r expl
        | .error e => .raisedOther e
      else .returnedNone

/-- The response-classification part of `SMS.send` (source lines 107-121):
identical to `SMS._send` except that there is no `204` branch, so a 204
response falls through `raise_for_status` and the method returns `None`. -/
def sendPublic : HttpOutcome → SendResult
  | .transportError => .raisedUnboundLocalError
  | .response r =>
      if 200 ≤ r.status_code ∧ r.status_code < 203 then
        match r.json_result with
        | .ok v => .returned v
        | .error _ => .raisedSMSErrorNoResponse
      else if 400 ≤ r.status_code ∧ r.status_code < 600 then
        match explain_response r with
        | .ok expl => .raisedSMSErrorWithResponse r expl
        | .error e => .raisedOther e
      else .returnedNone

example : sendInternal (.response ⟨204, .ok .null⟩) = .returnedEmpty := rfl
example : sendPublic (.response ⟨204, .ok .null⟩) = .returnedNone := rfl
example : sendInternal (.response ⟨203, .ok .null⟩) = .returnedNone := rfl
example : sendInternal .transportError = .raisedUnboundLocalError := rfl
example : sendInternal (.response ⟨404, .ok (.obj [])⟩)
    = .raisedSMSErrorWithResponse ⟨404, .ok (.obj [])⟩
        (some "The specified message was not found.") := rfl

/-- ASCII decimal-digit test on a character. -/
def isDigitChar (c : Char) : Bool :=
  decide (48 ≤ c.toNat) && decide (c.toNat ≤ 57)

/-- Numeric value of an ASCII digit character. -/
def dval (c : Char) : Nat := c.toNat - 48

/-- Checks the `YYYY-MM-DD HH:MM` shape: sixteen characters, digits in the
date/time positions, `-`/`-`/space/`:` separators, and no seconds field. -/
def isShapeYMDHM (s : String) : Bool :=
  match s.data with
  | [y1, y2, y3, y4, c1, mo1, mo2, c2, d1, d2, c3, h1, h2, c4, mi1, mi2] =>
      isDigitChar y1 && isDigitChar y2 && isDigitChar y3 && isDigitChar y4 &&
      isDigitChar mo1 && isDigitChar mo2 && isDigitChar d1 && isDigitChar d2 &&
      isDigitChar h1 && isDigitChar h2 && isDigitChar mi1 && isDigitChar mi2 &&
      decide (c1 = '-') && decide (c2 = '-') && decide (c3 = ' ') &&
      decide (c4 = ':')
  | _ => false

/-- Calendar-range side condition under which the canonical output formats
round-trip: fields within their calendar ranges and a four-digit year (the
range on which every platform `strftime` agrees). -/
def InRange (d : PyDateTime) : Prop :=
  1000 ≤ d.year ∧ d.year ≤ 9999 ∧ 1 ≤ d.month ∧ d.month ≤ 12 ∧
  1 ≤ d.day ∧ d.day ≤ 31 ∧ d.hour ≤ 23 ∧ d.minute ≤ 59 ∧ d.second ≤ 59

instance (d : PyDateTime) : Decidable (InRange d) := by
  unfold InRange; infer_instance

/-- `d` with its seconds field zeroed (what re-parsing a seconds-dropped
canonical string yields). -/
def dropSec (d : PyDateTime) : PyDateTime :=
  ⟨d.year, d.month, d.day, d.hour, d.minute, 0⟩

/-- `dateutil.parser.parse` restricted to the two canonical output formats
of `parse_time`: `YYYY-MM-DD HH:MM:SS` and `YYYY-MM-DD HH:MM` (the latter
parses with seconds zero).  Anything else is out of this oracle's modelled
domain. -/
def parseCanonical (s : String) : Option PyDateTime :=
  match s.data with
  | [y1, y2, y3, y4, c1, mo1, mo2, c2, d1, d2, c3, h1, h2, c4, mi1, mi2] =>
      if (isDigitChar y1 && isDigitChar y2 && isDigitChar y3 && isDigitChar y4 &&
          isDigitChar mo1 && isDigitChar mo2 && isDigitChar d1 && isDigitChar d2 &&
          isDigitChar h1 && isDigitChar h2 && isDigitChar mi1 && isDigitChar mi2 &&
          decide (c1 = '-') && decide (c2 = '-') && decide (c3 = ' ') &&
          decide (c4 = ':')) = true
      then some ⟨dval y1 * 1000 + dval y2 * 100 + dval y3 * 10 + dval y4,
                 dval mo1 * 10 + dval mo2, dval d1 * 10 + dval d2,
                 dval h1 * 10 + dval h2, dval mi1 * 10 + dval mi2, 0⟩
      else none
  | [y1, y2, y3, y4, c1, mo1, mo2, c2, d1, d2, c3, h1, h2, c4, mi1, mi2,
     c5, s1, s2] =>
      if (isDigitChar y1 && isDigitChar y2 && isDigitChar y3 && isDigitChar y4 &&
          isDigitChar mo1 && isDigitChar mo2 && isDigitChar d1 && isDigitChar d2 &&
          isDigitChar h1 && isDigitChar h2 && isDigitChar mi1 && isDigitChar mi2 &&
          isDigitChar s1 && isDigitChar s2 &&
          decide (c1 = '-') && decide (c2 = '-') && decide (c3 = ' ') &&
          decide (c4 = ':') && decide (c5 = ':')) = true
      then some ⟨dval y1 * 1000 + dval y2 * 100 + dval y3 * 10 + dval y4,
                 dval mo1 * 10 + dval mo2, dval d1 * 10 + dval d2,
                 dval h1 * 10 + dval h2, dval mi1 * 10 + dval mi2,
                 dval s1 * 10 + dval s2⟩
      else none
  | _ => none

example : parseCanonical "2018-03-23 10:27:24" = some ⟨2018, 3, 23, 10, 27, 24⟩ := by
  decide

example : parseCanonical "2018-03-23 10:27" = some ⟨2018, 3, 23, 10, 27, 0⟩ := by
  decide

example : isShapeYMDHM "2018-03-23 10:27" = true := by decide

lemma digitChar_toNat (k : Nat) (h : k < 10) : (digitChar k).toNat = 48 + k := by
  interval_cases k <;> rfl

lemma isDigitChar_digitChar (k : Nat) (h : k < 10) :
    isDigitChar (digitChar k) = true := by
  interval_cases k <;> rfl

lemma dval_digitChar (k : Nat) (h : k < 10) : dval (digitChar k) = k := by
  interval_cases k <;> rfl

lemma strftimeNoSec_ne_empty (d : PyDateTime) : strftimeNoSec d ≠ "" := by
  intro h
  have h2 := congrArg String.data h
  simp [strftimeNoSec] at h2

lemma strftimeSec_ne_empty (d : PyDateTime) : strftimeSec d ≠ "" := by
  intro h
  have h2 := congrArg String.data h
  simp [strftimeSec] at h2

lemma strftimeNoSec_dropSec (d : PyDateTime) :
    strftimeNoSec (dropSec d) = strftimeNoSec d := rfl

lemma isShapeYMDHM_strftimeNoSec (d : PyDateTime) :
    isShapeYMDHM (strftimeNoSec d) = true := by
  obtain ⟨y, mo, dd, h, mi, se⟩ := d
  simp only [strftimeNoSec, isShapeYMDHM]
  simp [isDigitChar_digitChar, Nat.mod_lt]

lemma parseCanonical_strftimeSec (d : PyDateTime) (h : InRange d) :
    parseCanonical (strftimeSec d) = some d := by
  obtain ⟨y, mo, dd, hh, mi, se⟩ := d
  have hb : 1000 ≤ y ∧ y ≤ 9999 ∧ 1 ≤ mo ∧ mo ≤ 12 ∧ 1 ≤ dd ∧ dd ≤ 31 ∧
      hh ≤ 23 ∧ mi ≤ 59 ∧ se ≤ 59 := h
  obtain ⟨hy1, hy2, hmo1, hmo2, hd1, hd2, hh1, hmi1, hse1⟩ := hb
  simp only [strftimeSec, parseCanonical]
  rw [if_pos]
  · simp only [Option.some.injEq, PyDateTime.mk.injEq,
      dval_digitChar _ (Nat.mod_lt _ (by norm_num))]
    refine ⟨?_, ?_, ?_, ?_, ?_, ?_⟩ <;> omega
  · simp [isDigitChar_digitChar, Nat.mod_lt]

lemma parseCanonical_strftimeNoSec (d : PyDateTime) (h : InRange d) :
    parseCanonical (strftimeNoSec d) = some (dropSec d) := by
  obtain ⟨y, mo, dd, hh, mi, se⟩ := d
  have hb : 1000 ≤ y ∧ y ≤ 9999 ∧ 1 ≤ mo ∧ mo ≤ 12 ∧ 1 ≤ dd ∧ dd ≤ 31 ∧
      hh ≤ 23 ∧ mi ≤ 59 ∧ se ≤ 59 := h
  obtain ⟨hy1, hy2, hmo1, hmo2, hd1, hd2, hh1, hmi1, hse1⟩ := hb
  simp only [strftimeNoSec, parseCanonical, dropSec]
  rw [if_pos]
  · simp only [Option.some.injEq, PyDateTime.mk.injEq,
      dval_digitChar _ (Nat.mod_lt _ (by norm_num))]
    refine ⟨?_, ?_, ?_, ?_, ?_, ?_⟩ <;> first | trivial | omega
  · simp [isDigitChar_digitChar, Nat.mod_lt]

/-- Successful normalization by the `phonenumbers` oracle (`parse` succeeds
and the number is valid), as an `Option`. -/
def phE164 (ph : String → PhoneParse) (r : String) : Option String :=
  match ph r with
  | .valid e => some e
  | _ => none

/-- Left-to-right `Option`-valued map, used to state that every element of a
recipients list normalizes successfully, with the results in order. -/
def mapMO (f : α → Option β) : List α → Option (List β)
  | [] => some []
  | a :: as =>
      match f a with
      | some b => (mapMO f as).map (fun bs => b :: bs)
      | Option.none => none

/-- Whether an `Except` computation succeeded. -/
def exceptOk : Except ε α → Bool
  | .ok _ => true
  | .error _ => false

/-- Whether the computation raised specifically `InvalidMessageError`. -/
def raisesInvalidMessageError : Except HubtelError α → Bool
  | .error (.invalidMessageError _) => true
  | _ => false

/-- Whether a JSON value is hashable in Python (usable as a dict key):
arrays and objects are not. -/
def hashable : JsonVal → Bool
  | .obj _ => false
  | .arr _ => false
  | _ => true

/-- `m` with its `recipient` attribute replaced. -/
def setRecipient (m : Message) (r : Option String) : Message :=
  ⟨m.sender, r, m.recipients, m.content, m.campaign_name, m.time,
   m.registered_delivery, m.flash_message, m.reference⟩

lemma phE164_valid (ph : String → PhoneParse) (r e : String)
    (h : phE164 ph r = some e) : ph r = .valid e := by
  unfold phE164 at h
  cases hp : ph r <;> rw [hp] at h <;> simp at h
  rw [h]

lemma mapME_mkMobile (ph : String → PhoneParse) (rs es : List String)
    (h : mapMO (phE164 ph) rs = some es) :
    mapME (fun r => Except.map mkMobile (parse_phone_number ph (some r))) rs
      = Except.ok (es.map (fun e => PyValue.dict [("MobileNumber", PyValue.str e)])) := by
  induction rs generalizing es with
  | nil =>
      simp only [mapMO, Option.some.injEq] at h
      subst h
      rfl
  | cons r rs ih =>
      simp only [mapMO] at h
      cases hph : phE164 ph r with
      | none => rw [hph] at h; simp at h
      | some b =>
          rw [hph] at h
          cases hrest : mapMO (phE164 ph) rs with
          | none => rw [hrest] at h; simp at h
          | some es2 =>
              rw [hrest] at h
              simp only [Option.map_some', Option.some.injEq] at h
              subst h
              simp only [mapME]
              rw [ih _ hrest]
              have hpr : parse_phone_number ph (some r) = Except.ok (some b) := by
                simp [parse_phone_number, phE164_valid ph r _ hph]
              rw [hpr]
              rfl

lemma route_eq_batches (m : Message) (rs : List String)
    (hrs : m.recipients = some rs) (hne : rs ≠ []) : m.route = "batches" := by
  simp only [Message.route, Message.is_bulk, hrs]
  cases rs with
  | nil => exact absurd rfl hne
  | cons a as => rfl

lemma route_eq_messages (m : Message)
    (hrs : m.recipients = Option.none) : m.route = "messages" := by
  simp only [Message.route, Message.is_bulk, hrs]
  rfl

/-- C8: for every dictionary, `prune` returns exactly the keys whose values
are truthy, with each retained value unchanged; every key with a falsy value
(`False`, `None`, `""`, `[]`, and also the integer `0`) is removed. -/
theorem C8_prune_truthy (b : List (String × PyValue)) (k : String) (v : PyValue) :
    ((k, v) ∈ prune b ↔ (k, v) ∈ b ∧ truthy v = true)
    ∧ prune [("zero", .int 0), ("flag", .bool false), ("name", .str ""),
             ("empty", .list []), ("absent", .none), ("kept", .int 7)]
      = [("kept", .int 7)] := by
  constructor
  · simp [prune, List.mem_filter]
  · rfl

/-- Witness for `C8_prune_truthy` at a concrete dictionary. -/
theorem C8_prune_truthy_witness :
    ("kept", PyValue.int 7) ∈ prune [("kept", PyValue.int 7)] :=
  (C8_prune_truthy [("kept", PyValue.int 7)] "kept" (PyValue.int 7)).1.mpr
    ⟨List.mem_singleton.mpr rfl, rfl⟩

/-- C4 (code bug): `parse_phone_number` on a number that the `phonenumbers`
library parses for region GH but reports as invalid — such as `"123"` —
silently returns Python `None` instead of raising `InvalidPhoneNumberError`,
contradicting the claim and the function's own docstring.  For a valid
number it returns the E.164 string; for an unparsable one it raises the
error carrying the offending input. -/
theorem C4_invalid_number_returns_none :
    parse_phone_number phGH (some "123") = .ok Option.none
    ∧ parse_phone_number phGH (some "0550000000") = .ok (some "+233550000000")
    ∧ parse_phone_number phGH (some "abc")
        = .error (.invalidPhoneNumberError "abc: is not a valid phone number.") :=
  ⟨rfl, rfl, rfl⟩

/-- C10: when both `recipient` and a non-empty `recipients` list are set,
`body` takes the bulk branch built from the recipients list, is unchanged
under any replacement of the single `recipient` field, and `route` is
`"batches"`. -/
theorem C10_recipients_precedence (ph : String → PhoneParse)
    (dt : String → Option PyDateTime) (m : Message) (rs : List String)
    (r2 : Option String) (hrs : m.recipients = some rs) (hne : rs ≠ []) :
    m.body ph dt = m.bulkBody ph dt rs
    ∧ m.body ph dt = (setRecipient m r2).body ph dt
    ∧ m.route = "batches" := by
  refine ⟨?_, ?_, route_eq_batches m rs hrs hne⟩
  · simp only [Message.body, hrs]
  · simp only [Message.body, setRecipient, hrs, Message.bulkBody]

/-- Witness for `C10_recipients_precedence` at a concrete message that sets
both `recipient` and `recipients`. -/
theorem C10_recipients_precedence_witness :
    Message.body phGH dtFix
      ⟨some "pyhubtel", some "0550000000", some ["0540000000"], some "hello",
       some "camp", Option.none, Option.none, Option.none, Option.none⟩
      = Message.bulkBody phGH dtFix
          ⟨some "pyhubtel", some "0550000000", some ["0540000000"], some "hello",
           some "camp", Option.none, Option.none, Option.none, Option.none⟩
          ["0540000000"]
    ∧ Message.body phGH dtFix
        ⟨some "pyhubtel", some "0550000000", some ["0540000000"], some "hello",
         some "camp", Option.none, Option.none, Option.none, Option.none⟩
      = Message.body phGH dtFix
          (setRecipient
            ⟨some "pyhubtel", some "0550000000", some ["0540000000"], some "hello",
             some "camp", Option.none, Option.none, Option.none, Option.none⟩
            Option.none)
    ∧ Message.route
        ⟨some "pyhubtel", some "0550000000", some ["0540000000"], some "hello",
         some "camp", Option.none, Option.none, Option.none, Option.none⟩
      = "batches" :=
  C10_recipients_precedence phGH dtFix _ ["0540000000"] Option.none rfl
    (by simp)

/-- C3 counterexample: a `Message` in the single-recipient shape with the
required `recipient` absent makes `body` raise `InvalidPhoneNumberError`
(from `parse_phone_number(None)`), not `InvalidMessageError` as the claim
states. -/
theorem C3_counterexample :
    Message.body phGH dtFix
      ⟨some "pyhubtel", Option.none, Option.none, some "hello",
       Option.none, Option.none, Option.none, Option.none, Option.none⟩
      = .error (.invalidPhoneNumberError "None: is not a valid phone number.")
    ∧ raisesInvalidMessageError (Message.body phGH dtFix
        ⟨some "pyhubtel", Option.none, Option.none, some "hello",
         Option.none, Option.none, Option.none, Option.none, Option.none⟩)
      = false :=
  ⟨rfl, rfl⟩

/-- C3 as amended: `body` raises `InvalidMessageError` only when the
`Messages` batch list is absent (`None`, so iterating it raises `TypeError`);
an absent single recipient, or a batch entry with an absent recipient,
raises `InvalidPhoneNumberError` instead; and a batch entry with an absent
`content` does not fail at all. -/
theorem C3_amended_error_types (ph : String → PhoneParse)
    (dt : String → Option PyDateTime) (m : Message) (b1 b2 b3 : Messages)
    (e1 e2 : Message) (tl : List Message) (r e164 : String) :
    (m.recipients = Option.none → m.recipient = Option.none →
      m.body ph dt
        = .error (.invalidPhoneNumberError "None: is not a valid phone number."))
    ∧ (b1.batch = Option.none →
      b1.body ph dt
        = .error (.invalidMessageError "TypeError: NoneType object is not iterable"))
    ∧ (b2.batch = some (e1 :: tl) → e1.recipient = Option.none →
      b2.body ph dt
        = .error (.invalidPhoneNumberError "None: is not a valid phone number."))
    ∧ (b3.batch = some [e2] → e2.recipient = some r → ph r = .valid e164 →
      e2.content = Option.none → b3.time = Option.none →
      exceptOk (b3.body ph dt) = true) := by
  refine ⟨?_, ?_, ?_, ?_⟩
  · intro h1 h2
    simp only [Message.body, h1, Message.singleBody, h2, parse_phone_number]
    rfl
  · intro h1
    simp only [Messages.body, h1]
  · intro h1 h2
    simp only [Messages.body, h1, mapME, h2, parse_phone_number]
    rfl
  · intro h1 h2 h3 h4 h5
    simp only [Messages.body, h1, mapME, h2, h3, parse_phone_number, parse_time, h5]
    rfl

/-- Witness for `C3_amended_error_types` at concrete messages and batches. -/
theorem C3_amended_error_types_witness :
    (Message.body phGH dtFix
      ⟨some "s", Option.none, Option.none, some "c",
       Option.none, Option.none, Option.none, Option.none, Option.none⟩
      = .error (.invalidPhoneNumberError "None: is not a valid phone number."))
    ∧ (Messages.body phGH dtFix ⟨some "s", some "n", Option.none, Option.none⟩
      = .error (.invalidMessageError "TypeError: NoneType object is not iterable"))
    ∧ (Messages.body phGH dtFix
        ⟨some "s", some "n",
         some [⟨some "s", Option.none, Option.none, some "c", Option.none,
                Option.none, Option.none, Option.none, Option.none⟩],
         Option.none⟩
      = .error (.invalidPhoneNumberError "None: is not a valid phone number."))
    ∧ (exceptOk (Messages.body phGH dtFix
        ⟨some "s", some "n",
         some [⟨Option.none, some "0550000000", Option.none, Option.none,
                Option.none, Option.none, Option.none, Option.none, Option.none⟩],
         Option.none⟩)
      = true) := by
  have h := C3_amended_error_types phGH dtFix
    ⟨some "s", Option.none, Option.none, some "c",
     Option.none, Option.none, Option.none, Option.none, Option.none⟩
    ⟨some "s", some "n", Option.none, Option.none⟩
    ⟨some "s", some "n",
     some [⟨some "s", Option.none, Option.none, some "c", Option.none,
            Option.none, Option.none, Option.none, Option.none⟩],
     Option.none⟩
    ⟨some "s", some "n",
     some [⟨Option.none, some "0550000000", Option.none, Option.none,
            Option.none, Option.none, Option.none, Option.none, Option.none⟩],
     Option.none⟩
    ⟨some "s", Option.none, Option.none, some "c", Option.none,
     Option.none, Option.none, Option.none, Option.none⟩
    ⟨Option.none, some "0550000000", Option.none, Option.none,
     Option.none, Option.none, Option.none, Option.none, Option.none⟩
    [] "0550000000" "+233550000000"
  exact ⟨h.1 rfl rfl, h.2.1 rfl, h.2.2.1 rfl rfl, h.2.2.2 rfl rfl rfl rfl rfl⟩

/-- C1: a `Message` with a non-empty recipients list (all normalizable), a
truthy sender, campaign name and content, and a parsable scheduled time
produces the `Groups`-shaped batch body — exactly one group whose
`Recipients` are the normalized numbers in order — paired with sender,
campaign name and the seconds-dropped time, and its route is `"batches"`. -/
theorem C1_bulk_message_body (ph : String → PhoneParse)
    (dt : String → Option PyDateTime) (m : Message) (rs es : List String)
    (sn cn ct ts : String) (d : PyDateTime)
    (hrs : m.recipients = some rs) (hne : rs ≠ [])
    (hes : mapMO (phE164 ph) rs = some es)
    (hsn : m.sender = some sn) (hsn2 : sn ≠ "")
    (hcn : m.campaign_name = some cn) (hcn2 : cn ≠ "")
    (hct : m.content = some ct)
    (ht : m.time = some ts) (hts : ts ≠ "") (hd : dt ts = some d) :
    m.body ph dt = .ok [
      ("SenderId", .str sn),
      ("Name", .str cn),
      ("Groups", .list [.dict [("Content", .str ct),
        ("Recipients", .list (es.map
          (fun e => PyValue.dict [("MobileNumber", PyValue.str e)])))]]),
      ("Time", .str (strftimeNoSec d))]
    ∧ m.route = "batches" := by
  refine ⟨?_, route_eq_batches m rs hrs hne⟩
  simp only [Message.body, hrs, Message.bulkBody]
  rw [mapME_mkMobile ph rs es hes]
  simp only [parse_time, ht, if_neg hts, hd, Except.bind, hsn, hcn, hct,
    optStrToPy, prune, List.filter, truthy]
  simp [hsn2, hcn2, strftimeNoSec_ne_empty d]

/-- Witness for `C1_bulk_message_body` at a concrete two-recipient message. -/
theorem C1_bulk_message_body_witness :
    Message.body phGH dtFix
      ⟨some "pyhubtel", Option.none, some ["0550000000", "0540000000"],
       some "hello", some "camp", some "2018-03-23 10:27:24",
       Option.none, Option.none, Option.none⟩
      = .ok [
        ("SenderId", .str "pyhubtel"),
        ("Name", .str "camp"),
        ("Groups", .list [.dict [("Content", .str "hello"),
          ("Recipients", .list [.dict [("MobileNumber", .str "+233550000000")],
                                .dict [("MobileNumber", .str "+233540000000")]])]]),
        ("Time", .str "2018-03-23 10:27")]
    ∧ Message.route
        ⟨some "pyhubtel", Option.none, some ["0550000000", "0540000000"],
         some "hello", some "camp", some "2018-03-23 10:27:24",
         Option.none, Option.none, Option.none⟩
      = "batches" :=
  C1_bulk_message_body phGH dtFix _ ["0550000000", "0540000000"]
    ["+233550000000", "+233540000000"] "pyhubtel" "camp" "hello"
    "2018-03-23 10:27:24" ⟨2018, 3, 23, 10, 27, 24⟩
    rfl (by simp) rfl rfl (by decide) rfl (by decide) rfl rfl (by decide) rfl

/-- C2: a `Message` with a single normalizable recipient and no recipients
list, truthy sender/content/reference, true delivery-receipt and
flash-message flags, and a parsable time produces the flat body whose `To`
is the normalized number, with sender, content, delivery-receipt flag,
time-with-seconds, flash-message flag and client reference, and its route
is `"messages"`. -/
theorem C2_single_message_body (ph : String → PhoneParse)
    (dt : String → Option PyDateTime) (m : Message)
    (r e164 sn ct rf ts : String) (d : PyDateTime)
    (hrs : m.recipients = Option.none)
    (hr : m.recipient = some r) (hph : ph r = .valid e164) (he2 : e164 ≠ "")
    (hsn : m.sender = some sn) (hsn2 : sn ≠ "")
    (hct : m.content = some ct) (hct2 : ct ≠ "")
    (hrd : m.registered_delivery = some true)
    (hfm : m.flash_message = some true)
    (hrf : m.reference = some rf) (hrf2 : rf ≠ "")
    (ht : m.time = some ts) (hts : ts ≠ "") (hd : dt ts = some d) :
    m.body ph dt = .ok [
      ("From", .str sn),
      ("To", .str e164),
      ("Content", .str ct),
      ("RegisteredDelivery", .bool true),
      ("Time", .str (strftimeSec d)),
      ("FlashMessage", .bool true),
      ("ClientReference", .str rf)]
    ∧ m.route = "messages" := by
  refine ⟨?_, route_eq_messages m hrs⟩
  simp only [Message.body, hrs, Message.singleBody, hr, parse_phone_number, hph,
    parse_time, ht, if_neg hts, hd, Except.bind, hsn, hct, hrd, hfm, hrf,
    optStrToPy, optBoolToPy, prune, List.filter, truthy]
  simp [hsn2, he2, hct2, hrf2, strftimeSec_ne_empty d]

/-- Witness for `C2_single_message_body` at a concrete single-recipient
message. -/
theorem C2_single_message_body_witness :
    Message.body phGH dtFix
      ⟨some "pyhubtel", some "0550000000", Option.none, some "hello",
       Option.none, some "2018-03-23 10:27:24", some true, some true,
       some "ref1"⟩
      = .ok [
        ("From", .str "pyhubtel"),
        ("To", .str "+233550000000"),
        ("Content", .str "hello"),
        ("RegisteredDelivery", .bool true),
        ("Time", .str "2018-03-23 10:27:24"),
        ("FlashMessage", .bool true),
        ("ClientReference", .str "ref1")]
    ∧ Message.route
        ⟨some "pyhubtel", some "0550000000", Option.none, some "hello",
         Option.none, some "2018-03-23 10:27:24", some true, some true,
         some "ref1"⟩
      = "messages" :=
  C2_single_message_body phGH dtFix _ "0550000000" "+233550000000" "pyhubtel"
    "hello" "ref1" "2018-03-23 10:27:24" ⟨2018, 3, 23, 10, 27, 24⟩
    rfl rfl rfl (by decide) rfl (by decide) rfl (by decide) rfl rfl rfl
    (by decide) rfl (by decide) rfl

/-- C5 counterexample: for a 400 response with the unrecognized sub-code 5,
the two-argument exception's reason is the raw message followed by
`": None"` (Python formatting of the absent explanation), not the raw
message itself as the claim states. -/
theorem C5_counterexample :
    reason_two "boom" ⟨400, .ok (.obj [("Status", .int 5)])⟩ = .ok "boom: None"
    ∧ "boom: None" ≠ "boom" :=
  ⟨rfl, by decide⟩

/-- C5 as amended: a 400 response whose body carries sub-code 4 yields a
reason ending in the sub-code-4 sentence (the raw message, `": "`, then
"The message is not routable on the Hubtel gateway."); the same status with
an unrecognized integer sub-code yields the raw message followed by
`": None"`, with no explanatory sentence. -/
theorem C5_amended_reason (msg : String) (n : Int)
    (h3 : n ≠ 3) (h4 : n ≠ 4) (h6 : n ≠ 6) (h7 : n ≠ 7) (h8 : n ≠ 8) :
    reason_two msg ⟨400, .ok (.obj [("Status", .int 4)])⟩
      = .ok (msg ++ ": " ++ "The message is not routable on the Hubtel gateway.")
    ∧ reason_two msg ⟨400, .ok (.obj [("Status", .int n)])⟩
      = .ok (msg ++ ": " ++ "None") := by
  constructor
  · rfl
  · simp [reason_two, explain_response, subLookup400, reasons400,
      h3, h4, h6, h7, h8, Except.bind]

/-- Witness for `C5_amended_reason` at a concrete message and sub-code. -/
theorem C5_amended_reason_witness :
    reason_two "boom2" ⟨400, .ok (.obj [("Status", .int 4)])⟩
      = .ok ("boom2" ++ ": " ++ "The message is not routable on the Hubtel gateway.")
    ∧ reason_two "boom2" ⟨400, .ok (.obj [("Status", .int 9)])⟩
      = .ok ("boom2" ++ ": " ++ "None") :=
  C5_amended_reason "boom2" 9 (by decide) (by decide) (by decide) (by decide)
    (by decide)

/-- C6 counterexample: constructing the two-argument exception from a
response whose body is not JSON propagates the `json()` decoding error
(`response.json()` runs before the `try` block in `_explain_response`), and
from a response whose body is JSON but not an object propagates the
`AttributeError` from `.get` — the construction does raise, contradicting
the claim. -/
theorem C6_counterexample :
    reason_two "m" ⟨500, .error .jsonDecodeError⟩ = .error .jsonDecodeError
    ∧ reason_two "m" ⟨400, .ok (.arr [])⟩ = .error .attributeError :=
  ⟨rfl, rfl⟩

/-- C6 as amended: for every response whose body parses as a JSON object —
including one lacking a `Status` field — and whose `Status` value is
hashable whenever the status code is 400, constructing the two-argument
exception never raises: it degrades to a generic per-status-code message or
to no explanation at all.  (A non-JSON body, a non-object body, or an
unhashable sub-code at status 400 does raise.) -/
theorem C6_amended_no_raise (msg : String) (status : Nat)
    (fields : List (String × JsonVal))
    (h : status = 400 → hashable ((fields.lookup "Status").getD (.bool false)) = true) :
    exceptOk (reason_two msg ⟨status, .ok (.obj fields)⟩) = true := by
  simp only [reason_two, explain_response]
  by_cases h400 : status = 400
  · subst h400
    rw [if_pos rfl]
    specialize h rfl
    cases hsub : (fields.lookup "Status").getD (.bool false) <;>
      rw [hsub] at h <;> simp [hashable] at h <;> rfl
  · rw [if_neg h400]
    by_cases h402 : status = 402
    · rw [if_pos h402]; rfl
    · rw [if_neg h402]
      by_cases h403 : status = 403
      · rw [if_pos h403]; rfl
      · rw [if_neg h403]
        by_cases h404 : status = 404
        · rw [if_pos h404]; rfl
        · rw [if_neg h404]; rfl

/-- Witness for `C6_amended_no_raise`: a 402 response with an empty JSON
object body, and by the same theorem a 400 response lacking a `Status`
field. -/
theorem C6_amended_no_raise_witness :
    exceptOk (reason_two "m2" ⟨402, .ok (.obj [])⟩) = true
    ∧ exceptOk (reason_two "m2" ⟨400, .ok (.obj [])⟩) = true :=
  ⟨C6_amended_no_raise "m2" 402 [] (by decide),
   C6_amended_no_raise "m2" 400 [] (fun _ => rfl)⟩

/-- C7 counterexample: a 203 response makes `_send` return Python `None`
(neither parsed JSON, nor `{}`, nor an `SMSError`); a 204 response makes the
public `send` return `None` rather than an empty mapping; and a
transport-level failure raises `UnboundLocalError` (the handler references
the never-assigned `response` variable), not `SMSError`. -/
theorem C7_counterexample :
    sendInternal (.response ⟨203, .ok .null⟩) = .returnedNone
    ∧ sendPublic (.response ⟨204, .ok .null⟩) = .returnedNone
    ∧ sendInternal .transportError = .raisedUnboundLocalError
    ∧ sendPublic .transportError = .raisedUnboundLocalError :=
  ⟨rfl, rfl, rfl, rfl⟩

/-- C7 as amended: a status in `[200, 203)` returns the parsed JSON body;
`204` returns an empty mapping in `_send` but Python `None` in `send`
(which has no 204 branch); a status in `[400, 600)` raises `SMSError`
carrying the response and its explanation (when the explanation itself does
not raise); any other status in `[203, 400)` returns Python `None` because
`raise_for_status` does not raise there; and a transport-level failure
raises `UnboundLocalError` from the handler, not `SMSError`. -/
theorem C7_amended_classification (r : Response) (v : JsonVal)
    (expl : Option String) :
    (200 ≤ r.status_code → r.status_code < 203 → r.json_result = .ok v →
      sendInternal (.response r) = .returned v
        ∧ sendPublic (.response r) = .returned v)
    ∧ (r.status_code = 204 →
      sendInternal (.response r) = .returnedEmpty
        ∧ sendPublic (.response r) = .returnedNone)
    ∧ (400 ≤ r.status_code → r.status_code < 600 → explain_response r = .ok expl →
      sendInternal (.response r) = .raisedSMSErrorWithResponse r expl
        ∧ sendPublic (.response r) = .raisedSMSErrorWithResponse r expl)
    ∧ (203 ≤ r.status_code → r.status_code < 400 → r.status_code ≠ 204 →
      sendInternal (.response r) = .returnedNone
        ∧ sendPublic (.response r) = .returnedNone)
    ∧ sendInternal .transportError = .raisedUnboundLocalError
    ∧ sendPublic .transportError = .raisedUnboundLocalError := by
  refine ⟨?_, ?_, ?_, ?_, rfl, rfl⟩
  · intro h1 h2 hj
    constructor <;>
      · simp only [sendInternal, sendPublic]
        rw [if_pos ⟨h1, h2⟩, hj]
  · intro h204
    constructor
    · simp only [sendInternal]
      rw [if_neg (by omega), if_pos h204]
    · simp only [sendPublic]
      rw [if_neg (by omega), if_neg (by omega)]
  · intro h1 h2 he
    constructor
    · simp only [sendInternal]
      rw [if_neg (by omega), if_neg (by omega), if_pos ⟨h1, h2⟩, he]
    · simp only [sendPublic]
      rw [if_neg (by omega), if_pos ⟨h1, h2⟩, he]
  · intro h1 h2 h3
    constructor
    · simp only [sendInternal]
      rw [if_neg (by omega), if_neg h3, if_neg (by omega)]
    · simp only [sendPublic]
      rw [if_neg (by omega), if_neg (by omega)]

/-- Witness for `C7_amended_classification`, exercising each branch at a
concrete response. -/
theorem C7_amended_classification_witness :
    sendInternal (.response ⟨200, .ok (.int 1)⟩) = .returned (.int 1)
    ∧ sendInternal (.response ⟨204, .ok .null⟩) = .returnedEmpty
    ∧ sendInternal (.response ⟨404, .ok (.obj [])⟩)
        = .raisedSMSErrorWithResponse ⟨404, .ok (.obj [])⟩
            (some "The specified message was not found.")
    ∧ sendInternal (.response ⟨301, .ok .null⟩) = .returnedNone :=
  ⟨((C7_amended_classification ⟨200, .ok (.int 1)⟩ (.int 1) Option.none).1
      (by decide) (by decide) rfl).1,
   ((C7_amended_classification ⟨204, .ok .null⟩ .null Option.none).2.1 rfl).1,
   ((C7_amended_classification ⟨404, .ok (.obj [])⟩ .null
      (some "The specified message was not found.")).2.2.1
      (by decide) (by decide) rfl).1,
   ((C7_amended_classification ⟨301, .ok .null⟩ .null Option.none).2.2.2.1
      (by decide) (by decide) (by decide)).1⟩

/-- C9: `parse_time` is idempotent after one normalization pass — re-parsing
its own output under the same `drop_seconds` setting yields the same output
— and the `drop_seconds = true` output always matches the `YYYY-MM-DD HH:MM`
shape with no seconds component.  The `dateutil` oracle is assumed to
round-trip the two canonical output formats on calendar-range datetimes,
which the real parser does. -/
theorem C9_parse_time_idempotent (dt : String → Option PyDateTime)
    (h1 : ∀ d, InRange d → dt (strftimeSec d) = some d)
    (h2 : ∀ d, InRange d → dt (strftimeNoSec d) = some (dropSec d))
    (s out : String) (ds : Bool) (d : PyDateTime)
    (hs : s ≠ "") (hd : dt s = some d) (hr : InRange d)
    (hout : parse_time dt (some s) ds = .ok (some out)) :
    parse_time dt (some out) ds = .ok (some out)
    ∧ (ds = true → isShapeYMDHM out = true) := by
  have hout2 : (if ds then strftimeNoSec d else strftimeSec d) = out := by
    simp only [parse_time, if_neg hs, hd, Except.ok.injEq, Option.some.injEq]
      at hout
    exact hout
  cases ds with
  | false =>
      simp only [if_neg Bool.false_ne_true] at hout2
      subst hout2
      refine ⟨?_, fun hc => absurd hc (by simp)⟩
      simp [parse_time, strftimeSec_ne_empty d, h1 d hr]
  | true =>
      simp only [if_pos rfl] at hout2
      subst hout2
      refine ⟨?_, fun _ => isShapeYMDHM_strftimeNoSec d⟩
      simp [parse_time, strftimeNoSec_ne_empty d, h2 d hr, strftimeNoSec_dropSec]

/-- Witness for `C9_parse_time_idempotent` with the canonical-format
`dateutil` model and a concrete timestamp. -/
theorem C9_parse_time_idempotent_witness :
    parse_time parseCanonical (some "2018-03-23 10:27") true
      = .ok (some "2018-03-23 10:27")
    ∧ (true = true → isShapeYMDHM "2018-03-23 10:27" = true) :=
  C9_parse_time_idempotent parseCanonical parseCanonical_strftimeSec
    parseCanonical_strftimeNoSec "2018-03-23 10:27:24" "2018-03-23 10:27"
    true ⟨2018, 3, 23, 10, 27, 24⟩ (by decide) (by decide) (by decide) rfl
